import Mathlib

/-!
Shallow embedding of `src/kivy/uix/styles.py`: the `BorderStyle` mixin,
which draws a configurable rectangle outline around a host widget and
keeps it synchronized with the widget's position and size through
reactive property-change callbacks.

Numbers (Python floats) are modelled as rationals; the toolkit's
`Line` and `Color` canvas instructions are records mutated in place;
the reactive property system is modelled from the spec as synchronous
dispatch of the bound `on_<prop>` handler exactly when a property is
set to a value different from its current one.
-/

set_option autoImplicit false

namespace Styles

/-- The RGBA color canvas instruction (`kivy.graphics.Color`) created by
`_draw_border`. -/
structure ColorInstr where
  rgba : List ℚ
deriving DecidableEq, Repr

/-- The rectangle-outline canvas instruction (`kivy.graphics.Line` built
with a `rectangle` argument) created by `_draw_border` and afterwards
mutated in place. `rectangle` is `[x, y, width, height]`. -/
structure Line where
  rectangle : List ℚ
  width : ℚ
  cap : String
  joint : String
  dash_length : ℚ
  dash_offset : ℚ
deriving DecidableEq, Repr

/-- One entry of the class-level `_dash_styles` table: a
(dash length, dash offset) pair. -/
structure DashStyle where
  dash_length : ℚ
  dash_offset : ℚ
deriving DecidableEq, Repr

/-- The class-level `_dash_styles` dict, as a lookup returning `none`
exactly where Python would raise `KeyError`. -/
def _dash_styles (key : String) : Option DashStyle :=
  if key = "dashed" then some ⟨10, 5⟩
  else if key = "dotted" then some ⟨1, 1⟩
  else if key = "solid" then some ⟨1, 0⟩
  else none

/-- Class attribute `CAP`. -/
def CAP : String := "square"

/-- Class attribute `JOINT`. -/
def JOINT : String := "miter"

/-- The observable state of one `BorderStyle` widget: the host widget's
`pos` and `size`, the mixin's declared properties, the plain instance
attributes assigned in `__init__`, and the canvas instructions.
`draw_count` is a ghost field counting invocations of `_draw_border`,
used only to state the create-at-most-once invariant. -/
structure BorderState where
  pos : ℚ × ℚ
  size : ℚ × ℚ
  border_width : ℚ
  border_style : String
  border_color : List ℚ
  borders : ℚ × String × List ℚ
  _border_origin_x : ℚ
  _border_origin_y : ℚ
  _border_lines : Option Line
  _border_color_instr : Option ColorInstr
  _INIT_STATE : Bool
  cur_dash_style : DashStyle
  draw_count : Nat
deriving DecidableEq, Repr

/-- `_draw_border` (lines 99–111): create the color instruction and the
outline `Line` (initial rectangle `[0,0,0,0]`) in `canvas.after`. -/
def _draw_border (s : BorderState) : BorderState :=
  { s with
    _border_color_instr := some ⟨s.border_color⟩
    _border_lines := some
      { rectangle := [0, 0, 0, 0]
        width := s.border_width
        cap := CAP
        joint := JOINT
        dash_length := s.cur_dash_style.dash_length
        dash_offset := s.cur_dash_style.dash_offset }
    draw_count := s.draw_count + 1 }

/-- `_update_borders` (lines 113–123): if the outline exists, set its
rectangle to `[origin_x, origin_y, size[0] - 2*width, size[1] - 2*width]`. -/
def _update_borders (s : BorderState) : BorderState :=
  { s with _border_lines := s._border_lines.map (fun l =>
      { l with rectangle :=
          [s._border_origin_x, s._border_origin_y,
           s.size.1 - 2 * s.border_width, s.size.2 - 2 * s.border_width] }) }

/-- `on__border_origin` (lines 129–133): update the outline geometry,
and on the first origin event set `_INIT_STATE` and draw the border. -/
def on__border_origin (s : BorderState) : BorderState :=
  let s := _update_borders s
  if s._INIT_STATE then s
  else _draw_border { s with _INIT_STATE := true }

/-- Modelled from the spec: setting the `_border_origin_x` component of
the `_border_origin` reference-list property dispatches the bound
`on__border_origin` handler exactly when the value changes. -/
def set__border_origin_x (v : ℚ) (s : BorderState) : BorderState :=
  if s._border_origin_x = v then s
  else on__border_origin { s with _border_origin_x := v }

/-- Modelled from the spec: setting the `_border_origin_y` component of
the `_border_origin` reference-list property dispatches the bound
`on__border_origin` handler exactly when the value changes. -/
def set__border_origin_y (v : ℚ) (s : BorderState) : BorderState :=
  if s._border_origin_y = v then s
  else on__border_origin { s with _border_origin_y := v }

/-- `set_border_origin` (lines 125–127): assign
`_border_origin_x := pos[0] + border_width` and then
`_border_origin_y := pos[1] + border_width`, each through the
dispatching property setter. -/
def set_border_origin (s : BorderState) : BorderState :=
  let s := set__border_origin_x (s.pos.1 + s.border_width) s
  set__border_origin_y (s.pos.2 + s.border_width) s

/-- `on_pos` (lines 145–146). -/
def on_pos (s : BorderState) : BorderState :=
  set_border_origin s

/-- Modelled from the spec: setting the widget `pos` property dispatches
`on_pos` exactly when the value changes. -/
def set_pos (p : ℚ × ℚ) (s : BorderState) : BorderState :=
  if s.pos = p then s else on_pos { s with pos := p }

/-- `on_size` (lines 135–143): recompute the origin, overwrite the
widget's own `pos` with the origin, and lazily draw the border on the
first size event. -/
def on_size (s : BorderState) : BorderState :=
  let s := set_border_origin s
  let s := set_pos (s._border_origin_x, s._border_origin_y) s
  if s._INIT_STATE then s
  else _draw_border { s with _INIT_STATE := true }

/-- Modelled from the spec: setting the widget `size` property
dispatches `on_size` exactly when the value changes. -/
def set_size (sz : ℚ × ℚ) (s : BorderState) : BorderState :=
  if s.size = sz then s else on_size { s with size := sz }

/-- In-place mutation `self._border_lines.width = w`. -/
def setLineWidth (w : ℚ) (s : BorderState) : BorderState :=
  { s with _border_lines := s._border_lines.map (fun l => { l with width := w }) }

/-- In-place mutation `self._border_lines.rectangle = r`. -/
def setLineRectangle (r : List ℚ) (s : BorderState) : BorderState :=
  { s with _border_lines := s._border_lines.map (fun l => { l with rectangle := r }) }

/-- The body of `on_border_width` (lines 154–175), parameterized by the
re-dispatch `recurse` that models the property setter re-entering the
handler when the clamping branch assigns `self.border_width = max_width`
(the assignment re-dispatches exactly when the value changed). -/
def on_border_width_step (recurse : BorderState → BorderState) (s : BorderState) :
    BorderState :=
  let s := set_border_origin s
  let max_width := s.size.1 / 4
  if s._border_lines.isSome then
    if s.border_width ≤ max_width then
      if 0 < s.border_width then
        setLineWidth s.border_width s
      else if s.border_width ≠ 0 then
        -- negative width: stroke width is fabs(border_width)
        setLineWidth |s.border_width| s
      else
        -- border_width = 0: hide the rectangle
        setLineRectangle [0, 0, 0, 0] s
    else
      -- limit border to the max value; the field assignment re-dispatches
      let s := setLineWidth max_width s
      if s.border_width = max_width then s
      else recurse { s with border_width := max_width }
  else s

/-- `on_border_width` with fuel for the bounded re-dispatch: the
re-entry depth is at most one extra level, because the clamped value
satisfies `border_width <= max_width`, so the fuel used below is never
exhausted from the public entry points. -/
def on_border_width_go : Nat → BorderState → BorderState
  | 0, s => s
  | fuel + 1, s => on_border_width_step (on_border_width_go fuel) s

/-- The `on_border_width` handler at its (sufficient) fuel. -/
def on_border_width (s : BorderState) : BorderState :=
  on_border_width_go 3 s

/-- Modelled from the spec: setting the `border_width` numeric property
dispatches `on_border_width` exactly when the value changes. -/
def set_border_width (w : ℚ) (s : BorderState) : BorderState :=
  if s.border_width = w then s
  else on_border_width { s with border_width := w }

/-- Setting the `border_color` list property; no `on_border_color`
handler is defined in the class, so this is a plain field update. -/
def set_border_color (c : List ℚ) (s : BorderState) : BorderState :=
  { s with border_color := c }

/-- `on_borders` (lines 148–152): unpack the triple into
`border_width`, `border_style`, `border_color` in that order, look up
the dash style (`KeyError`, i.e. `none`, on an unknown key) and
recompute the origin. -/
def on_borders (v : ℚ × String × List ℚ) (s : BorderState) : Option BorderState :=
  let s := set_border_width v.1 s
  let s := { s with border_style := v.2.1 }
  let s := set_border_color v.2.2 s
  (_dash_styles s.border_style).map (fun d =>
    set_border_origin { s with cur_dash_style := d })

/-- Modelled from the spec: setting the `borders` list property
dispatches `on_borders` exactly when the value changes. -/
def set_borders (v : ℚ × String × List ℚ) (s : BorderState) : Option BorderState :=
  if s.borders = v then some s
  else on_borders v { s with borders := v }

/-- Modelled from the spec: a freshly allocated host widget before the
mixin constructor body runs. The toolkit defaults are
`pos = (0, 0)` and `size = (100, 100)`; the class-level property
defaults of the mixin are `border_width = 1` and
`border_color = [1, 1, 1, 1]`; no canvas instruction exists yet and
`_INIT_STATE` is false. `border_style` and `cur_dash_style` are plain
attributes first assigned in the constructor body; their values here
are placeholders which the constructor always overwrites (or fails). -/
def baseWidget : BorderState :=
  { pos := (0, 0)
    size := (100, 100)
    border_width := 1
    border_style := "solid"
    border_color := [1, 1, 1, 1]
    borders := (1, "solid", [1, 1, 1, 1])
    _border_origin_x := 0
    _border_origin_y := 0
    _border_lines := none
    _border_color_instr := none
    _INIT_STATE := false
    cur_dash_style := ⟨1, 0⟩
    draw_count := 0 }

/-- `__init__` (lines 89–97): each keyword argument is substituted by
its default when missing or falsy (`x if x else default`), assigned in
source order through the dispatching setters; the dash-style lookup can
fail (`KeyError`) on an unknown style string. -/
def mkBorderStyle (bw : Option ℚ) (bs : Option String) (bc : Option (List ℚ)) :
    Option BorderState :=
  let s := baseWidget
  let s := set_border_width
    (match bw with | some w => if w = 0 then (1 : ℚ) else w | none => 1) s
  let s := { s with border_style :=
    match bs with | some st => if st = "" then "solid" else st | none => "solid" }
  (_dash_styles s.border_style).map (fun d =>
    let s := { s with cur_dash_style := d }
    set_border_color
      (match bc with | some c => if c = [] then [1, 1, 1, 1] else c | none => [1, 1, 1, 1]) s)

/-- A public mutation of the widget, as performed through the property
system from outside. -/
inductive Op where
  | opSetPos (p : ℚ × ℚ)
  | opSetSize (sz : ℚ × ℚ)
  | opSetBorderWidth (w : ℚ)
  | opSetBorderColor (c : List ℚ)
  | opSetBorders (v : ℚ × String × List ℚ)
deriving DecidableEq, Repr

/-- Run one public mutation. -/
def applyOp : Op → BorderState → Option BorderState
  | .opSetPos p, s => some (set_pos p s)
  | .opSetSize sz, s => some (set_size sz s)
  | .opSetBorderWidth w, s => some (set_border_width w s)
  | .opSetBorderColor c, s => some (set_border_color c s)
  | .opSetBorders v, s => set_borders v s

/-- Run a sequence of public mutations. -/
def applyOps : List Op → BorderState → Option BorderState
  | [], s => some s
  | op :: ops, s => (applyOp op s).bind (applyOps ops)

/-- The observable geometry of a widget: its position, its size, the
border origin, and the rectangle and stroke width of the drawn outline
when it exists. -/
def geometry (s : BorderState) :
    (ℚ × ℚ) × (ℚ × ℚ) × (ℚ × ℚ) × Option (List ℚ × ℚ) :=
  (s.pos, s.size, (s._border_origin_x, s._border_origin_y),
   s._border_lines.map (fun l => (l.rectangle, l.width)))

/-- The position/size synchronization sequence: the size-change handler
followed by the position-change handler. -/
def sync_sequence (s : BorderState) : BorderState :=
  on_pos (on_size s)

/-- The drawing instructions exist exactly when `_INIT_STATE` is set,
and `_draw_border` has run exactly once in that case (never otherwise). -/
def Inv (s : BorderState) : Prop :=
  s._border_lines.isSome = s._INIT_STATE ∧
  s.draw_count = (if s._INIT_STATE then 1 else 0)

/-- A concrete initialized widget used to instantiate the claim
theorems: the default widget after one size-change event. -/
def widget1 : BorderState := set_size (200, 80) baseWidget

/-- A concrete zero-width widget. -/
def zWidget : BorderState := set_border_width 0 baseWidget

/-! ### Projection lemmas for the atomic operations -/

@[simp] theorem update_borders_pos (s : BorderState) : (_update_borders s).pos = s.pos := rfl

@[simp] theorem update_borders_size (s : BorderState) : (_update_borders s).size = s.size := rfl

@[simp] theorem update_borders_bw (s : BorderState) :
    (_update_borders s).border_width = s.border_width := rfl

@[simp] theorem update_borders_style (s : BorderState) :
    (_update_borders s).border_style = s.border_style := rfl

@[simp] theorem update_borders_color (s : BorderState) :
    (_update_borders s).border_color = s.border_color := rfl

@[simp] theorem update_borders_borders (s : BorderState) :
    (_update_borders s).borders = s.borders := rfl

@[simp] theorem update_borders_ox (s : BorderState) :
    (_update_borders s)._border_origin_x = s._border_origin_x := rfl

@[simp] theorem update_borders_oy (s : BorderState) :
    (_update_borders s)._border_origin_y = s._border_origin_y := rfl

@[simp] theorem update_borders_init (s : BorderState) :
    (_update_borders s)._INIT_STATE = s._INIT_STATE := rfl

@[simp] theorem update_borders_cur (s : BorderState) :
    (_update_borders s).cur_dash_style = s.cur_dash_style := rfl

@[simp] theorem update_borders_count (s : BorderState) :
    (_update_borders s).draw_count = s.draw_count := rfl

@[simp] theorem update_borders_isSome (s : BorderState) :
    (_update_borders s)._border_lines.isSome = s._border_lines.isSome := by
  cases h : s._border_lines <;> simp [_update_borders, h]

@[simp] theorem update_borders_width_map (s : BorderState) :
    (_update_borders s)._border_lines.map Line.width = s._border_lines.map Line.width := by
  cases h : s._border_lines <;> simp [_update_borders, h]

@[simp] theorem draw_border_pos (s : BorderState) : (_draw_border s).pos = s.pos := rfl

@[simp] theorem draw_border_size (s : BorderState) : (_draw_border s).size = s.size := rfl

@[simp] theorem draw_border_bw (s : BorderState) :
    (_draw_border s).border_width = s.border_width := rfl

@[simp] theorem draw_border_style (s : BorderState) :
    (_draw_border s).border_style = s.border_style := rfl

@[simp] theorem draw_border_color (s : BorderState) :
    (_draw_border s).border_color = s.border_color := rfl

@[simp] theorem draw_border_borders (s : BorderState) :
    (_draw_border s).borders = s.borders := rfl

@[simp] theorem draw_border_ox (s : BorderState) :
    (_draw_border s)._border_origin_x = s._border_origin_x := rfl

@[simp] theorem draw_border_oy (s : BorderState) :
    (_draw_border s)._border_origin_y = s._border_origin_y := rfl

@[simp] theorem draw_border_init (s : BorderState) :
    (_draw_border s)._INIT_STATE = s._INIT_STATE := rfl

@[simp] theorem draw_border_cur (s : BorderState) :
    (_draw_border s).cur_dash_style = s.cur_dash_style := rfl

@[simp] theorem draw_border_count (s : BorderState) :
    (_draw_border s).draw_count = s.draw_count + 1 := rfl

@[simp] theorem draw_border_isSome (s : BorderState) :
    (_draw_border s)._border_lines.isSome = true := rfl

/-! ### Lemmas for the origin-change handler and origin setters -/

@[simp] theorem on_origin_pos (s : BorderState) : (on__border_origin s).pos = s.pos := by
  unfold on__border_origin; dsimp only; split <;> simp

@[simp] theorem on_origin_size (s : BorderState) : (on__border_origin s).size = s.size := by
  unfold on__border_origin; dsimp only; split <;> simp

@[simp] theorem on_origin_bw (s : BorderState) :
    (on__border_origin s).border_width = s.border_width := by
  unfold on__border_origin; dsimp only; split <;> simp

@[simp] theorem on_origin_style (s : BorderState) :
    (on__border_origin s).border_style = s.border_style := by
  unfold on__border_origin; dsimp only; split <;> simp

@[simp] theorem on_origin_color (s : BorderState) :
    (on__border_origin s).border_color = s.border_color := by
  unfold on__border_origin; dsimp only; split <;> simp

@[simp] theorem on_origin_borders (s : BorderState) :
    (on__border_origin s).borders = s.borders := by
  unfold on__border_origin; dsimp only; split <;> simp

@[simp] theorem on_origin_ox (s : BorderState) :
    (on__border_origin s)._border_origin_x = s._border_origin_x := by
  unfold on__border_origin; dsimp only; split <;> simp

@[simp] theorem on_origin_oy (s : BorderState) :
    (on__border_origin s)._border_origin_y = s._border_origin_y := by
  unfold on__border_origin; dsimp only; split <;> simp

@[simp] theorem on_origin_cur (s : BorderState) :
    (on__border_origin s).cur_dash_style = s.cur_dash_style := by
  unfold on__border_origin; dsimp only; split <;> simp

@[simp] theorem on_origin_init (s : BorderState) :
    (on__border_origin s)._INIT_STATE = true := by
  unfold on__border_origin; dsimp only; split
  · assumption
  · rfl

theorem on_origin_of_init (s : BorderState) (h : s._INIT_STATE = true) :
    on__border_origin s = _update_borders s := by
  unfold on__border_origin
  simp [h]

/-! ### Lemmas for the component setters of the origin -/

@[simp] theorem set_ox_pos (v : ℚ) (s : BorderState) :
    (set__border_origin_x v s).pos = s.pos := by
  unfold set__border_origin_x; split <;> simp

@[simp] theorem set_ox_size (v : ℚ) (s : BorderState) :
    (set__border_origin_x v s).size = s.size := by
  unfold set__border_origin_x; split <;> simp

@[simp] theorem set_ox_bw (v : ℚ) (s : BorderState) :
    (set__border_origin_x v s).border_width = s.border_width := by
  unfold set__border_origin_x; split <;> simp

@[simp] theorem set_ox_style (v : ℚ) (s : BorderState) :
    (set__border_origin_x v s).border_style = s.border_style := by
  unfold set__border_origin_x; split <;> simp

@[simp] theorem set_ox_color (v : ℚ) (s : BorderState) :
    (set__border_origin_x v s).border_color = s.border_color := by
  unfold set__border_origin_x; split <;> simp

@[simp] theorem set_ox_borders (v : ℚ) (s : BorderState) :
    (set__border_origin_x v s).borders = s.borders := by
  unfold set__border_origin_x; split <;> simp

@[simp] theorem set_ox_cur (v : ℚ) (s : BorderState) :
    (set__border_origin_x v s).cur_dash_style = s.cur_dash_style := by
  unfold set__border_origin_x; split <;> simp

@[simp] theorem set_ox_ox (v : ℚ) (s : BorderState) :
    (set__border_origin_x v s)._border_origin_x = v := by
  unfold set__border_origin_x; split
  · assumption
  · simp

@[simp] theorem set_ox_oy (v : ℚ) (s : BorderState) :
    (set__border_origin_x v s)._border_origin_y = s._border_origin_y := by
  unfold set__border_origin_x; split <;> simp

@[simp] theorem set_oy_pos (v : ℚ) (s : BorderState) :
    (set__border_origin_y v s).pos = s.pos := by
  unfold set__border_origin_y; split <;> simp

@[simp] theorem set_oy_size (v : ℚ) (s : BorderState) :
    (set__border_origin_y v s).size = s.size := by
  unfold set__border_origin_y; split <;> simp

@[simp] theorem set_oy_bw (v : ℚ) (s : BorderState) :
    (set__border_origin_y v s).border_width = s.border_width := by
  unfold set__border_origin_y; split <;> simp

@[simp] theorem set_oy_style (v : ℚ) (s : BorderState) :
    (set__border_origin_y v s).border_style = s.border_style := by
  unfold set__border_origin_y; split <;> simp

@[simp] theorem set_oy_color (v : ℚ) (s : BorderState) :
    (set__border_origin_y v s).border_color = s.border_color := by
  unfold set__border_origin_y; split <;> simp

@[simp] theorem set_oy_borders (v : ℚ) (s : BorderState) :
    (set__border_origin_y v s).borders = s.borders := by
  unfold set__border_origin_y; split <;> simp

@[simp] theorem set_oy_cur (v : ℚ) (s : BorderState) :
    (set__border_origin_y v s).cur_dash_style = s.cur_dash_style := by
  unfold set__border_origin_y; split <;> simp

@[simp] theorem set_oy_oy (v : ℚ) (s : BorderState) :
    (set__border_origin_y v s)._border_origin_y = v := by
  unfold set__border_origin_y; split
  · assumption
  · simp

@[simp] theorem set_oy_ox (v : ℚ) (s : BorderState) :
    (set__border_origin_y v s)._border_origin_x = s._border_origin_x := by
  unfold set__border_origin_y; split <;> simp

/-! ### Lemmas for `set_border_origin` -/

@[simp] theorem sbo_pos (s : BorderState) : (set_border_origin s).pos = s.pos := by
  unfold set_border_origin; simp

@[simp] theorem sbo_size (s : BorderState) : (set_border_origin s).size = s.size := by
  unfold set_border_origin; simp

@[simp] theorem sbo_bw (s : BorderState) :
    (set_border_origin s).border_width = s.border_width := by
  unfold set_border_origin; simp

@[simp] theorem sbo_style (s : BorderState) :
    (set_border_origin s).border_style = s.border_style := by
  unfold set_border_origin; simp

@[simp] theorem sbo_color (s : BorderState) :
    (set_border_origin s).border_color = s.border_color := by
  unfold set_border_origin; simp

@[simp] theorem sbo_borders (s : BorderState) :
    (set_border_origin s).borders = s.borders := by
  unfold set_border_origin; simp

@[simp] theorem sbo_cur (s : BorderState) :
    (set_border_origin s).cur_dash_style = s.cur_dash_style := by
  unfold set_border_origin; simp

@[simp] theorem sbo_ox (s : BorderState) :
    (set_border_origin s)._border_origin_x = s.pos.1 + s.border_width := by
  unfold set_border_origin; simp

@[simp] theorem sbo_oy (s : BorderState) :
    (set_border_origin s)._border_origin_y = s.pos.2 + s.border_width := by
  unfold set_border_origin; simp

/-- The effect of the `_border_origin_x` setter on an already
initialized widget. -/
theorem set_ox_of_init (v : ℚ) (s : BorderState) (h : s._INIT_STATE = true) :
    set__border_origin_x v s =
      if s._border_origin_x = v then s
      else _update_borders { s with _border_origin_x := v } := by
  unfold set__border_origin_x
  split
  · rfl
  · exact on_origin_of_init _ (by simpa using h)

/-- The effect of the `_border_origin_y` setter on an already
initialized widget. -/
theorem set_oy_of_init (v : ℚ) (s : BorderState) (h : s._INIT_STATE = true) :
    set__border_origin_y v s =
      if s._border_origin_y = v then s
      else _update_borders { s with _border_origin_y := v } := by
  unfold set__border_origin_y
  split
  · rfl
  · exact on_origin_of_init _ (by simpa using h)

/-- The full effect of `set_border_origin` on an already initialized
widget: a no-op when the origin is already in sync, otherwise the new
origin is stored and the outline geometry is refreshed. -/
theorem sbo_of_init (s : BorderState) (h : s._INIT_STATE = true) :
    set_border_origin s =
      if s._border_origin_x = s.pos.1 + s.border_width ∧
          s._border_origin_y = s.pos.2 + s.border_width
      then s
      else _update_borders { s with
        _border_origin_x := s.pos.1 + s.border_width
        _border_origin_y := s.pos.2 + s.border_width } := by
  unfold set_border_origin
  simp only [set_ox_pos, set_ox_bw]
  rw [set_ox_of_init _ _ h]
  by_cases hx : s._border_origin_x = s.pos.1 + s.border_width
  · rw [if_pos hx, set_oy_of_init _ _ h]
    by_cases hy : s._border_origin_y = s.pos.2 + s.border_width
    · rw [if_pos hy, if_pos ⟨hx, hy⟩]
    · rw [if_neg hy, if_neg (fun hc => hy hc.2), ← hx]
  · rw [if_neg hx, set_oy_of_init _ _ (by simp [h])]
    simp only [update_borders_oy, update_borders_pos, update_borders_bw]
    by_cases hy : s._border_origin_y = s.pos.2 + s.border_width
    · rw [if_pos hy, if_neg (fun hc => hx hc.1), ← hy]
    · rw [if_neg hy, if_neg (fun hc => hx hc.1)]
      cases hls : s._border_lines <;> simp [_update_borders, hls]

theorem sbo_init_of_init (s : BorderState) (h : s._INIT_STATE = true) :
    (set_border_origin s)._INIT_STATE = true := by
  rw [sbo_of_init s h]; split <;> simp [h]

theorem sbo_count_of_init (s : BorderState) (h : s._INIT_STATE = true) :
    (set_border_origin s).draw_count = s.draw_count := by
  rw [sbo_of_init s h]; split <;> simp

theorem sbo_isSome_of_init (s : BorderState) (h : s._INIT_STATE = true) :
    (set_border_origin s)._border_lines.isSome = s._border_lines.isSome := by
  rw [sbo_of_init s h]; split
  · rfl
  · rw [update_borders_isSome]

theorem sbo_width_map_of_init (s : BorderState) (h : s._INIT_STATE = true) :
    (set_border_origin s)._border_lines.map Line.width =
      s._border_lines.map Line.width := by
  rw [sbo_of_init s h]; split
  · rfl
  · rw [update_borders_width_map]

/-- When the origin actually changes on an initialized widget, the
outline rectangle is refreshed from the new origin and the current
size and border width. -/
theorem sbo_rect_of_init (s : BorderState) (l : Line) (h : s._INIT_STATE = true)
    (hl : s._border_lines = some l)
    (hch : ¬(s._border_origin_x = s.pos.1 + s.border_width ∧
             s._border_origin_y = s.pos.2 + s.border_width)) :
    (set_border_origin s)._border_lines.map Line.rectangle =
      some [s.pos.1 + s.border_width, s.pos.2 + s.border_width,
            s.size.1 - 2 * s.border_width, s.size.2 - 2 * s.border_width] := by
  rw [sbo_of_init s h, if_neg hch]
  simp [_update_borders, hl]

/-- `set_border_origin` is the identity once the origin agrees with
`pos + (border_width, border_width)`. -/
theorem sbo_stable (s : BorderState)
    (h1 : s._border_origin_x = s.pos.1 + s.border_width)
    (h2 : s._border_origin_y = s.pos.2 + s.border_width) :
    set_border_origin s = s := by
  unfold set_border_origin set__border_origin_x
  rw [if_pos h1]
  unfold set__border_origin_y
  rw [if_pos h2]

/-! ### Lemmas for `on_pos`, `set_pos` and `on_size` -/

@[simp] theorem on_pos_pos (s : BorderState) : (on_pos s).pos = s.pos := by
  unfold on_pos; simp

@[simp] theorem on_pos_size (s : BorderState) : (on_pos s).size = s.size := by
  unfold on_pos; simp

@[simp] theorem on_pos_bw (s : BorderState) :
    (on_pos s).border_width = s.border_width := by
  unfold on_pos; simp

@[simp] theorem on_pos_style (s : BorderState) :
    (on_pos s).border_style = s.border_style := by
  unfold on_pos; simp

@[simp] theorem on_pos_color (s : BorderState) :
    (on_pos s).border_color = s.border_color := by
  unfold on_pos; simp

@[simp] theorem on_pos_borders (s : BorderState) :
    (on_pos s).borders = s.borders := by
  unfold on_pos; simp

@[simp] theorem on_pos_cur (s : BorderState) :
    (on_pos s).cur_dash_style = s.cur_dash_style := by
  unfold on_pos; simp

@[simp] theorem on_pos_ox (s : BorderState) :
    (on_pos s)._border_origin_x = s.pos.1 + s.border_width := by
  unfold on_pos; simp

@[simp] theorem on_pos_oy (s : BorderState) :
    (on_pos s)._border_origin_y = s.pos.2 + s.border_width := by
  unfold on_pos; simp

@[simp] theorem set_pos_pos (p : ℚ × ℚ) (s : BorderState) :
    (set_pos p s).pos = p := by
  unfold set_pos; split
  · assumption
  · simp

@[simp] theorem set_pos_size (p : ℚ × ℚ) (s : BorderState) :
    (set_pos p s).size = s.size := by
  unfold set_pos; split <;> simp

@[simp] theorem set_pos_bw (p : ℚ × ℚ) (s : BorderState) :
    (set_pos p s).border_width = s.border_width := by
  unfold set_pos; split <;> simp

@[simp] theorem set_pos_style (p : ℚ × ℚ) (s : BorderState) :
    (set_pos p s).border_style = s.border_style := by
  unfold set_pos; split <;> simp

@[simp] theorem set_pos_color (p : ℚ × ℚ) (s : BorderState) :
    (set_pos p s).border_color = s.border_color := by
  unfold set_pos; split <;> simp

@[simp] theorem set_pos_borders (p : ℚ × ℚ) (s : BorderState) :
    (set_pos p s).borders = s.borders := by
  unfold set_pos; split <;> simp

@[simp] theorem set_pos_cur (p : ℚ × ℚ) (s : BorderState) :
    (set_pos p s).cur_dash_style = s.cur_dash_style := by
  unfold set_pos; split <;> simp

theorem on_pos_init_of_init (s : BorderState) (h : s._INIT_STATE = true) :
    (on_pos s)._INIT_STATE = true := by
  unfold on_pos; exact sbo_init_of_init s h

theorem on_pos_count_of_init (s : BorderState) (h : s._INIT_STATE = true) :
    (on_pos s).draw_count = s.draw_count := by
  unfold on_pos; exact sbo_count_of_init s h

theorem on_pos_isSome_of_init (s : BorderState) (h : s._INIT_STATE = true) :
    (on_pos s)._border_lines.isSome = s._border_lines.isSome := by
  unfold on_pos; exact sbo_isSome_of_init s h

theorem on_pos_width_map_of_init (s : BorderState) (h : s._INIT_STATE = true) :
    (on_pos s)._border_lines.map Line.width = s._border_lines.map Line.width := by
  unfold on_pos; exact sbo_width_map_of_init s h

theorem set_pos_init_of_init (p : ℚ × ℚ) (s : BorderState)
    (h : s._INIT_STATE = true) :
    (set_pos p s)._INIT_STATE = true := by
  unfold set_pos; split
  · exact h
  · exact on_pos_init_of_init _ (by simpa using h)

theorem set_pos_count_of_init (p : ℚ × ℚ) (s : BorderState)
    (h : s._INIT_STATE = true) :
    (set_pos p s).draw_count = s.draw_count := by
  unfold set_pos; split
  · rfl
  · rw [on_pos_count_of_init _ (by simpa using h)]

theorem set_pos_isSome_of_init (p : ℚ × ℚ) (s : BorderState)
    (h : s._INIT_STATE = true) :
    (set_pos p s)._border_lines.isSome = s._border_lines.isSome := by
  unfold set_pos; split
  · rfl
  · rw [on_pos_isSome_of_init _ (by simpa using h)]

theorem set_pos_width_map_of_init (p : ℚ × ℚ) (s : BorderState)
    (h : s._INIT_STATE = true) :
    (set_pos p s)._border_lines.map Line.width = s._border_lines.map Line.width := by
  unfold set_pos; split
  · rfl
  · rw [on_pos_width_map_of_init _ (by simpa using h)]

@[simp] theorem on_size_size (s : BorderState) : (on_size s).size = s.size := by
  unfold on_size; dsimp only; split <;> simp

@[simp] theorem on_size_bw (s : BorderState) :
    (on_size s).border_width = s.border_width := by
  unfold on_size; dsimp only; split <;> simp

@[simp] theorem on_size_style (s : BorderState) :
    (on_size s).border_style = s.border_style := by
  unfold on_size; dsimp only; split <;> simp

@[simp] theorem on_size_color (s : BorderState) :
    (on_size s).border_color = s.border_color := by
  unfold on_size; dsimp only; split <;> simp

@[simp] theorem on_size_borders (s : BorderState) :
    (on_size s).borders = s.borders := by
  unfold on_size; dsimp only; split <;> simp

@[simp] theorem on_size_cur (s : BorderState) :
    (on_size s).cur_dash_style = s.cur_dash_style := by
  unfold on_size; dsimp only; split <;> simp

@[simp] theorem on_size_pos (s : BorderState) :
    (on_size s).pos = (s.pos.1 + s.border_width, s.pos.2 + s.border_width) := by
  unfold on_size; dsimp only; split <;> simp

@[simp] theorem on_size_init (s : BorderState) :
    (on_size s)._INIT_STATE = true := by
  unfold on_size; dsimp only; split
  · assumption
  · rfl

/-! ### Lemmas for the in-place line mutations -/

@[simp] theorem slw_pos (w : ℚ) (s : BorderState) : (setLineWidth w s).pos = s.pos := rfl

@[simp] theorem slw_size (w : ℚ) (s : BorderState) : (setLineWidth w s).size = s.size := rfl

@[simp] theorem slw_bw (w : ℚ) (s : BorderState) :
    (setLineWidth w s).border_width = s.border_width := rfl

@[simp] theorem slw_style (w : ℚ) (s : BorderState) :
    (setLineWidth w s).border_style = s.border_style := rfl

@[simp] theorem slw_color (w : ℚ) (s : BorderState) :
    (setLineWidth w s).border_color = s.border_color := rfl

@[simp] theorem slw_borders (w : ℚ) (s : BorderState) :
    (setLineWidth w s).borders = s.borders := rfl

@[simp] theorem slw_ox (w : ℚ) (s : BorderState) :
    (setLineWidth w s)._border_origin_x = s._border_origin_x := rfl

@[simp] theorem slw_oy (w : ℚ) (s : BorderState) :
    (setLineWidth w s)._border_origin_y = s._border_origin_y := rfl

@[simp] theorem slw_init (w : ℚ) (s : BorderState) :
    (setLineWidth w s)._INIT_STATE = s._INIT_STATE := rfl

@[simp] theorem slw_cur (w : ℚ) (s : BorderState) :
    (setLineWidth w s).cur_dash_style = s.cur_dash_style := rfl

@[simp] theorem slw_count (w : ℚ) (s : BorderState) :
    (setLineWidth w s).draw_count = s.draw_count := rfl

@[simp] theorem slw_isSome (w : ℚ) (s : BorderState) :
    (setLineWidth w s)._border_lines.isSome = s._border_lines.isSome := by
  cases h : s._border_lines <;> simp [setLineWidth, h]

@[simp] theorem slw_width_map (w : ℚ) (s : BorderState) :
    (setLineWidth w s)._border_lines.map Line.width =
      s._border_lines.map (fun _ => w) := by
  cases h : s._border_lines <;> simp [setLineWidth, h]

@[simp] theorem slw_rect_map (w : ℚ) (s : BorderState) :
    (setLineWidth w s)._border_lines.map Line.rectangle =
      s._border_lines.map Line.rectangle := by
  cases h : s._border_lines <;> simp [setLineWidth, h]

@[simp] theorem slr_pos (r : List ℚ) (s : BorderState) :
    (setLineRectangle r s).pos = s.pos := rfl

@[simp] theorem slr_size (r : List ℚ) (s : BorderState) :
    (setLineRectangle r s).size = s.size := rfl

@[simp] theorem slr_bw (r : List ℚ) (s : BorderState) :
    (setLineRectangle r s).border_width = s.border_width := rfl

@[simp] theorem slr_style (r : List ℚ) (s : BorderState) :
    (setLineRectangle r s).border_style = s.border_style := rfl

@[simp] theorem slr_color (r : List ℚ) (s : BorderState) :
    (setLineRectangle r s).border_color = s.border_color := rfl

@[simp] theorem slr_borders (r : List ℚ) (s : BorderState) :
    (setLineRectangle r s).borders = s.borders := rfl

@[simp] theorem slr_ox (r : List ℚ) (s : BorderState) :
    (setLineRectangle r s)._border_origin_x = s._border_origin_x := rfl

@[simp] theorem slr_oy (r : List ℚ) (s : BorderState) :
    (setLineRectangle r s)._border_origin_y = s._border_origin_y := rfl

@[simp] theorem slr_init (r : List ℚ) (s : BorderState) :
    (setLineRectangle r s)._INIT_STATE = s._INIT_STATE := rfl

@[simp] theorem slr_cur (r : List ℚ) (s : BorderState) :
    (setLineRectangle r s).cur_dash_style = s.cur_dash_style := rfl

@[simp] theorem slr_count (r : List ℚ) (s : BorderState) :
    (setLineRectangle r s).draw_count = s.draw_count := rfl

@[simp] theorem slr_isSome (r : List ℚ) (s : BorderState) :
    (setLineRectangle r s)._border_lines.isSome = s._border_lines.isSome := by
  cases h : s._border_lines <;> simp [setLineRectangle, h]

@[simp] theorem slr_width_map (r : List ℚ) (s : BorderState) :
    (setLineRectangle r s)._border_lines.map Line.width =
      s._border_lines.map Line.width := by
  cases h : s._border_lines <;> simp [setLineRectangle, h]

@[simp] theorem slr_rect_map (r : List ℚ) (s : BorderState) :
    (setLineRectangle r s)._border_lines.map Line.rectangle =
      s._border_lines.map (fun _ => r) := by
  cases h : s._border_lines <;> simp [setLineRectangle, h]

/-! ### Case analysis of the `on_border_width` handler -/

theorem on_border_width_eq (s : BorderState) :
    on_border_width s = on_border_width_step (on_border_width_go 2) s := rfl

theorem on_border_width_go_two (s : BorderState) :
    on_border_width_go 2 s = on_border_width_step (on_border_width_go 1) s := rfl

/-- The handler body in the in-range positive case. -/
theorem step_of_le_pos (r : BorderState → BorderState) (s : BorderState)
    (hI : s._INIT_STATE = true) (hsome : s._border_lines.isSome = true)
    (hle : s.border_width ≤ s.size.1 / 4) (hpos : 0 < s.border_width) :
    on_border_width_step r s = setLineWidth s.border_width (set_border_origin s) := by
  unfold on_border_width_step
  dsimp only
  rw [if_pos (by rw [sbo_isSome_of_init s hI]; exact hsome)]
  rw [if_pos (show (set_border_origin s).border_width ≤
        (set_border_origin s).size.1 / 4 by simp only [sbo_bw, sbo_size]; exact hle)]
  rw [if_pos (show 0 < (set_border_origin s).border_width by
        simp only [sbo_bw]; exact hpos)]
  rw [sbo_bw]

/-- The handler body in the negative case. -/
theorem step_of_neg (r : BorderState → BorderState) (s : BorderState)
    (hI : s._INIT_STATE = true) (hsome : s._border_lines.isSome = true)
    (hle : s.border_width ≤ s.size.1 / 4) (hneg : s.border_width < 0) :
    on_border_width_step r s = setLineWidth |s.border_width| (set_border_origin s) := by
  unfold on_border_width_step
  dsimp only
  rw [if_pos (by rw [sbo_isSome_of_init s hI]; exact hsome)]
  rw [if_pos (show (set_border_origin s).border_width ≤
        (set_border_origin s).size.1 / 4 by simp only [sbo_bw, sbo_size]; exact hle)]
  rw [if_neg (show ¬0 < (set_border_origin s).border_width by
        simp only [sbo_bw]; exact fun hc => absurd hneg (not_lt.mpr hc.le))]
  rw [if_pos (show (set_border_origin s).border_width ≠ 0 by
        simp only [sbo_bw]; exact ne_of_lt hneg)]
  rw [sbo_bw]

/-- The handler body in the zero case. -/
theorem step_of_zero (r : BorderState → BorderState) (s : BorderState)
    (hI : s._INIT_STATE = true) (hsome : s._border_lines.isSome = true)
    (hle : s.border_width ≤ s.size.1 / 4) (hz : s.border_width = 0) :
    on_border_width_step r s = setLineRectangle [0, 0, 0, 0] (set_border_origin s) := by
  unfold on_border_width_step
  dsimp only
  rw [if_pos (by rw [sbo_isSome_of_init s hI]; exact hsome)]
  rw [if_pos (show (set_border_origin s).border_width ≤
        (set_border_origin s).size.1 / 4 by simp only [sbo_bw, sbo_size]; exact hle)]
  rw [if_neg (show ¬0 < (set_border_origin s).border_width by
        simp only [sbo_bw, hz]; exact lt_irrefl 0)]
  rw [if_neg (show ¬(set_border_origin s).border_width ≠ 0 by
        simp only [sbo_bw, hz]; exact fun hc => hc rfl)]

/-- The handler body in the clamping case: the stroke width is set to
the max, then the field assignment re-dispatches the handler. -/
theorem step_of_clamp (r : BorderState → BorderState) (s : BorderState)
    (hI : s._INIT_STATE = true) (hsome : s._border_lines.isSome = true)
    (hgt : s.size.1 / 4 < s.border_width) :
    on_border_width_step r s =
      r { setLineWidth (s.size.1 / 4) (set_border_origin s) with
          border_width := s.size.1 / 4 } := by
  unfold on_border_width_step
  dsimp only
  rw [if_pos (by rw [sbo_isSome_of_init s hI]; exact hsome)]
  rw [if_neg (show ¬(set_border_origin s).border_width ≤
        (set_border_origin s).size.1 / 4 by
        simp only [sbo_bw, sbo_size]; exact not_le.mpr hgt)]
  rw [if_neg (show ¬(setLineWidth ((set_border_origin s).size.1 / 4)
          (set_border_origin s)).border_width =
        (set_border_origin s).size.1 / 4 by
        simp only [slw_bw, sbo_bw, sbo_size]; exact ne_of_gt hgt)]
  simp only [sbo_size]

/-- In the in-range positive case the handler keeps the stored width and
sets the stroke width to it. -/
theorem obw_le_pos (s : BorderState)
    (hI : s._INIT_STATE = true) (hsome : s._border_lines.isSome = true)
    (hle : s.border_width ≤ s.size.1 / 4) (hpos : 0 < s.border_width) :
    on_border_width s = setLineWidth s.border_width (set_border_origin s) := by
  rw [on_border_width_eq, step_of_le_pos _ _ hI hsome hle hpos]

/-- In the negative case the stroke width becomes the absolute value. -/
theorem obw_neg (s : BorderState)
    (hI : s._INIT_STATE = true) (hsome : s._border_lines.isSome = true)
    (hle : s.border_width ≤ s.size.1 / 4) (hneg : s.border_width < 0) :
    on_border_width s = setLineWidth |s.border_width| (set_border_origin s) := by
  rw [on_border_width_eq, step_of_neg _ _ hI hsome hle hneg]

/-- In the zero case the rectangle is collapsed. -/
theorem obw_zero (s : BorderState)
    (hI : s._INIT_STATE = true) (hsome : s._border_lines.isSome = true)
    (hle : s.border_width ≤ s.size.1 / 4) (hz : s.border_width = 0) :
    on_border_width s = setLineRectangle [0, 0, 0, 0] (set_border_origin s) := by
  rw [on_border_width_eq, step_of_zero _ _ hI hsome hle hz]

/-- In the clamping case both the stored field and the stroke width end
up equal to a quarter of the widget width. -/
theorem obw_clamp (s : BorderState)
    (hI : s._INIT_STATE = true) (hsome : s._border_lines.isSome = true)
    (hW : 0 ≤ s.size.1) (hgt : s.size.1 / 4 < s.border_width) :
    (on_border_width s).border_width = s.size.1 / 4 ∧
    (on_border_width s)._border_lines.map Line.width = some (s.size.1 / 4) := by
  rw [on_border_width_eq, step_of_clamp _ _ hI hsome hgt]
  have hvI : ({ setLineWidth (s.size.1 / 4) (set_border_origin s) with
      border_width := s.size.1 / 4 })._INIT_STATE = true := by
    simp only [slw_init]
    exact sbo_init_of_init s hI
  have hvsome : ({ setLineWidth (s.size.1 / 4) (set_border_origin s) with
      border_width := s.size.1 / 4 })._border_lines.isSome = true := by
    simp only [slw_isSome]
    rw [sbo_isSome_of_init s hI]
    exact hsome
  have hvle : ({ setLineWidth (s.size.1 / 4) (set_border_origin s) with
      border_width := s.size.1 / 4 }).border_width ≤
      ({ setLineWidth (s.size.1 / 4) (set_border_origin s) with
      border_width := s.size.1 / 4 }).size.1 / 4 := by
    simp
  rw [on_border_width_go_two]
  by_cases hp : 0 < s.size.1 / 4
  · rw [step_of_le_pos _ _ hvI hvsome hvle (by simpa using hp)]
    have hs2 : (set_border_origin { setLineWidth (s.size.1 / 4) (set_border_origin s) with
        border_width := s.size.1 / 4 })._border_lines.isSome = true := by
      rw [sbo_isSome_of_init _ hvI]
      exact hvsome
    obtain ⟨l2, hl2⟩ := Option.isSome_iff_exists.mp hs2
    constructor
    · simp
    · rw [slw_width_map, hl2]
      simp
  · have hmax0 : s.size.1 / 4 = 0 :=
      le_antisymm (not_lt.mp hp) (by positivity)
    rw [step_of_zero _ _ hvI hvsome hvle (by simpa using hmax0)]
    have hs2 : (set_border_origin { setLineWidth (s.size.1 / 4) (set_border_origin s) with
        border_width := s.size.1 / 4 })._border_lines.isSome = true := by
      rw [sbo_isSome_of_init _ hvI]
      exact hvsome
    constructor
    · simp [hmax0]
    · rw [slr_width_map, sbo_width_map_of_init _ hvI]
      have h3 : ({ setLineWidth (s.size.1 / 4) (set_border_origin s) with
          border_width := s.size.1 / 4 })._border_lines.map Line.width =
          (set_border_origin s)._border_lines.map (fun _ => s.size.1 / 4) := by
        simp
      rw [h3]
      have h4 : (set_border_origin s)._border_lines.isSome = true := by
        rw [sbo_isSome_of_init s hI]
        exact hsome
      obtain ⟨l2, hl2⟩ := Option.isSome_iff_exists.mp h4
      rw [hl2]
      rfl

/-- The handler always leaves the origin in sync with the (possibly
clamped) stored width, whatever the widget state. -/
theorem obw_origin (s : BorderState) :
    (on_border_width s)._border_origin_x =
      s.pos.1 + (on_border_width s).border_width ∧
    (on_border_width s)._border_origin_y =
      s.pos.2 + (on_border_width s).border_width := by
  rw [on_border_width_eq]
  unfold on_border_width_step
  dsimp only
  split
  · split
    · split
      · simp
      · split <;> simp
    · split
      · simp
      · rw [on_border_width_go_two]
        unfold on_border_width_step
        dsimp only
        split
        · split
          · split
            · simp
            · split <;> simp
          · rename_i hc
            exact absurd (by simp) hc
        · simp
  · simp

/-- The handler preserves the stored width except in the clamping case,
where the stored width becomes a quarter of the widget width. -/
theorem obw_bw_cases (s : BorderState) :
    (on_border_width s).border_width = s.border_width ∨
    (on_border_width s).border_width = s.size.1 / 4 := by
  rw [on_border_width_eq]
  unfold on_border_width_step
  dsimp only
  split
  · split
    · split
      · left; simp
      · split
        · left; simp
        · left; simp
    · split
      · left; simp
      · rw [on_border_width_go_two]
        unfold on_border_width_step
        dsimp only
        split
        · split
          · split
            · right; simp
            · split
              · right; simp
              · right; simp
          · rename_i hc
            exact absurd (by simp) hc
        · right; simp
  · left; simp

/-- The stored width survives the handler when it is within range. -/
theorem obw_bw_of_le (s : BorderState) (hle : s.border_width ≤ s.size.1 / 4) :
    (on_border_width s).border_width = s.border_width := by
  rw [on_border_width_eq]
  unfold on_border_width_step
  dsimp only
  split
  · split
    · split
      · simp
      · split <;> simp
    · rename_i hc
      exact absurd (by simpa using hle) hc
  · simp

/-- The dispatching `border_width` setter on an actual value change. -/
theorem set_border_width_of_ne (w : ℚ) (s : BorderState) (h : s.border_width ≠ w) :
    set_border_width w s = on_border_width { s with border_width := w } := by
  unfold set_border_width
  rw [if_neg h]

/-! ### Lemmas for `set_border_color` -/

@[simp] theorem sbc_pos (c : List ℚ) (s : BorderState) :
    (set_border_color c s).pos = s.pos := rfl

@[simp] theorem sbc_size (c : List ℚ) (s : BorderState) :
    (set_border_color c s).size = s.size := rfl

@[simp] theorem sbc_bw (c : List ℚ) (s : BorderState) :
    (set_border_color c s).border_width = s.border_width := rfl

@[simp] theorem sbc_style (c : List ℚ) (s : BorderState) :
    (set_border_color c s).border_style = s.border_style := rfl

@[simp] theorem sbc_color (c : List ℚ) (s : BorderState) :
    (set_border_color c s).border_color = c := rfl

@[simp] theorem sbc_init (c : List ℚ) (s : BorderState) :
    (set_border_color c s)._INIT_STATE = s._INIT_STATE := rfl

/-! ### Stability of the synchronization sequence -/

/-- The synchronization sequence is the identity on a stable state:
zero border width, origin equal to the position, already initialized. -/
theorem seq_stable (s : BorderState) (hbw : s.border_width = 0)
    (hx : s._border_origin_x = s.pos.1) (hy : s._border_origin_y = s.pos.2)
    (hI : s._INIT_STATE = true) :
    sync_sequence s = s := by
  have hsbo : set_border_origin s = s :=
    sbo_stable s (by rw [hbw, add_zero]; exact hx) (by rw [hbw, add_zero]; exact hy)
  unfold sync_sequence on_size
  dsimp only
  rw [hsbo]
  have hsp : set_pos (s._border_origin_x, s._border_origin_y) s = s := by
    unfold set_pos
    rw [if_pos (by rw [hx, hy])]
  rw [hsp, if_pos hI]
  unfold on_pos
  exact hsbo

/-- After one run of the synchronization sequence on a zero-width
widget, the state is stable in the sense of `seq_stable`. -/
theorem seq_establishes (s : BorderState) (h0 : s.border_width = 0) :
    (sync_sequence s).border_width = 0 ∧
    (sync_sequence s)._border_origin_x = (sync_sequence s).pos.1 ∧
    (sync_sequence s)._border_origin_y = (sync_sequence s).pos.2 ∧
    (sync_sequence s)._INIT_STATE = true := by
  unfold sync_sequence
  refine ⟨by simp [h0], by simp [h0], by simp [h0], ?_⟩
  exact on_pos_init_of_init _ (on_size_init s)

/-! ### The create-at-most-once invariant -/

theorem inv_update_borders (s : BorderState) (h : Inv s) : Inv (_update_borders s) :=
  ⟨by simp [h.1], by simp [h.2]⟩

theorem inv_lazy_draw (t : BorderState) (h : Inv t) (hf : ¬t._INIT_STATE = true) :
    Inv (_draw_border { t with _INIT_STATE := true }) := by
  have hIf : t._INIT_STATE = false := by
    cases hb : t._INIT_STATE
    · rfl
    · exact absurd hb hf
  obtain ⟨h1, h2⟩ := h
  exact ⟨by simp, by simp [h2, hIf]⟩

theorem inv_on_origin (s : BorderState) (h : Inv s) : Inv (on__border_origin s) := by
  unfold on__border_origin
  dsimp only
  split
  · exact inv_update_borders s h
  · rename_i hf
    exact inv_lazy_draw _ (inv_update_borders s h) hf

theorem inv_set_ox (v : ℚ) (s : BorderState) (h : Inv s) :
    Inv (set__border_origin_x v s) := by
  unfold set__border_origin_x
  split
  · exact h
  · exact inv_on_origin _ h

theorem inv_set_oy (v : ℚ) (s : BorderState) (h : Inv s) :
    Inv (set__border_origin_y v s) := by
  unfold set__border_origin_y
  split
  · exact h
  · exact inv_on_origin _ h

theorem inv_sbo (s : BorderState) (h : Inv s) : Inv (set_border_origin s) := by
  unfold set_border_origin
  exact inv_set_oy _ _ (inv_set_ox _ _ h)

theorem inv_on_pos (s : BorderState) (h : Inv s) : Inv (on_pos s) :=
  inv_sbo _ h

theorem inv_set_pos (p : ℚ × ℚ) (s : BorderState) (h : Inv s) :
    Inv (set_pos p s) := by
  unfold set_pos
  split
  · exact h
  · exact inv_on_pos _ h

theorem inv_on_size (s : BorderState) (h : Inv s) : Inv (on_size s) := by
  unfold on_size
  dsimp only
  split
  · exact inv_set_pos _ _ (inv_sbo _ h)
  · rename_i hf
    exact inv_lazy_draw _ (inv_set_pos _ _ (inv_sbo _ h)) hf

theorem inv_set_size (sz : ℚ × ℚ) (s : BorderState) (h : Inv s) :
    Inv (set_size sz s) := by
  unfold set_size
  split
  · exact h
  · exact inv_on_size _ h

theorem inv_slw (w : ℚ) (s : BorderState) (h : Inv s) : Inv (setLineWidth w s) :=
  ⟨by simp [h.1], by simp [h.2]⟩

theorem inv_slr (r : List ℚ) (s : BorderState) (h : Inv s) :
    Inv (setLineRectangle r s) :=
  ⟨by simp [h.1], by simp [h.2]⟩

theorem inv_step (r : BorderState → BorderState) (s : BorderState)
    (hr : ∀ t, Inv t → Inv (r t)) (h : Inv s) :
    Inv (on_border_width_step r s) := by
  unfold on_border_width_step
  dsimp only
  split
  · split
    · split
      · exact inv_slw _ _ (inv_sbo _ h)
      · split
        · exact inv_slw _ _ (inv_sbo _ h)
        · exact inv_slr _ _ (inv_sbo _ h)
    · split
      · exact inv_slw _ _ (inv_sbo _ h)
      · exact hr _ (inv_slw _ _ (inv_sbo _ h))
  · exact inv_sbo _ h

theorem on_border_width_go_succ (fuel : Nat) (s : BorderState) :
    on_border_width_go (fuel + 1) s =
      on_border_width_step (on_border_width_go fuel) s := rfl

theorem inv_go (fuel : Nat) : ∀ s, Inv s → Inv (on_border_width_go fuel s) := by
  induction fuel with
  | zero => intro s h; exact h
  | succ n ih =>
    intro s h
    rw [on_border_width_go_succ]
    exact inv_step _ _ ih h

theorem inv_obw (s : BorderState) (h : Inv s) : Inv (on_border_width s) :=
  inv_go 3 s h

theorem inv_sbw (w : ℚ) (s : BorderState) (h : Inv s) :
    Inv (set_border_width w s) := by
  unfold set_border_width
  split
  · exact h
  · exact inv_obw _ h

theorem inv_sbc (c : List ℚ) (s : BorderState) (h : Inv s) :
    Inv (set_border_color c s) := h

/-- Normal form of the `on_borders` handler: the dash-style lookup of
the freshly assigned style key decides success, and on success the
three fields have been assigned in order and the origin recomputed. -/
theorem on_borders_eq (v : ℚ × String × List ℚ) (s : BorderState) :
    on_borders v s =
      (_dash_styles v.2.1).map (fun d =>
        set_border_origin
          { set_border_color v.2.2
              { set_border_width v.1 s with border_style := v.2.1 } with
            cur_dash_style := d }) := rfl

theorem inv_on_borders (v : ℚ × String × List ℚ) (s s' : BorderState)
    (h : Inv s) (heq : on_borders v s = some s') : Inv s' := by
  rw [on_borders_eq, Option.map_eq_some'] at heq
  obtain ⟨d, hd, hfd⟩ := heq
  rw [← hfd]
  exact inv_sbo _ (inv_sbc v.2.2 _ (inv_sbw v.1 s h))

theorem inv_set_borders (v : ℚ × String × List ℚ) (s s' : BorderState)
    (h : Inv s) (heq : set_borders v s = some s') : Inv s' := by
  unfold set_borders at heq
  split at heq
  · rw [Option.some.injEq] at heq
    rw [← heq]
    exact h
  · refine inv_on_borders v { s with borders := v } s' ?_ heq
    exact h

theorem inv_applyOp (op : Op) (s s' : BorderState)
    (h : Inv s) (heq : applyOp op s = some s') : Inv s' := by
  cases op with
  | opSetPos p =>
    simp only [applyOp, Option.some.injEq] at heq
    rw [← heq]; exact inv_set_pos _ _ h
  | opSetSize sz =>
    simp only [applyOp, Option.some.injEq] at heq
    rw [← heq]; exact inv_set_size _ _ h
  | opSetBorderWidth w =>
    simp only [applyOp, Option.some.injEq] at heq
    rw [← heq]; exact inv_sbw _ _ h
  | opSetBorderColor c =>
    simp only [applyOp, Option.some.injEq] at heq
    rw [← heq]; exact inv_sbc _ _ h
  | opSetBorders v =>
    simp only [applyOp] at heq
    exact inv_set_borders _ _ _ h heq

theorem inv_applyOps (ops : List Op) :
    ∀ s s', Inv s → applyOps ops s = some s' → Inv s' := by
  induction ops with
  | nil =>
    intro s s' h heq
    rw [show applyOps [] s = some s from rfl, Option.some.injEq] at heq
    rw [← heq]; exact h
  | cons op rest ih =>
    intro s s' h heq
    rw [show applyOps (op :: rest) s = (applyOp op s).bind (applyOps rest) from rfl]
      at heq
    rcases hop : applyOp op s with _ | t
    · rw [hop] at heq; simp at heq
    · rw [hop] at heq
      simp only [Option.some_bind] at heq
      exact ih t s' (inv_applyOp op s t h hop) heq

theorem inv_baseWidget : Inv baseWidget :=
  ⟨rfl, rfl⟩

/-- `Inv` only depends on the drawing instruction, the init flag and
the ghost counter. -/
theorem inv_of_fields (t s : BorderState)
    (h1 : t._border_lines = s._border_lines)
    (h2 : t._INIT_STATE = s._INIT_STATE)
    (h3 : t.draw_count = s.draw_count)
    (h : Inv s) : Inv t := by
  unfold Inv at h ⊢
  rw [h1, h2, h3]
  exact h

theorem inv_mk (bw : Option ℚ) (bs : Option String) (bc : Option (List ℚ))
    (s0 : BorderState) (heq : mkBorderStyle bw bs bc = some s0) : Inv s0 := by
  unfold mkBorderStyle at heq
  dsimp only at heq
  rw [Option.map_eq_some'] at heq
  obtain ⟨d, hd, hfd⟩ := heq
  rw [← hfd]
  exact inv_of_fields _ (set_border_width _ baseWidget) rfl rfl rfl
    (inv_sbw _ _ inv_baseWidget)

/-- The dispatching setter keeps the assigned width except when the
handler clamps it to a quarter of the widget width. -/
theorem sbw_bw_cases (w : ℚ) (s : BorderState) :
    (set_border_width w s).border_width = w ∨
    (set_border_width w s).border_width = s.size.1 / 4 := by
  unfold set_border_width
  split
  · rename_i h; left; exact h
  · rcases obw_bw_cases { s with border_width := w } with h | h
    · left; exact h
    · right; exact h

/-- The dispatching setter keeps an in-range assigned width. -/
theorem sbw_bw_of_le (w : ℚ) (s : BorderState) (hle : w ≤ s.size.1 / 4) :
    (set_border_width w s).border_width = w := by
  unfold set_border_width
  split
  · rename_i h; exact h
  · exact obw_bw_of_le { s with border_width := w } hle

/-- Assigning an in-range positive width to an initialized zero-width
widget whose origin sits at its position restores a stroke of that
width and the inset outline rectangle. -/
theorem reactivate (t : BorderState) (w : ℚ) (hI : t._INIT_STATE = true)
    (hsome : t._border_lines.isSome = true) (hbw0 : t.border_width = 0)
    (hox : t._border_origin_x = t.pos.1)
    (hwpos : 0 < w) (hwle : w ≤ t.size.1 / 4) :
    (set_border_width w t)._border_lines.map Line.width = some w ∧
    (set_border_width w t)._border_lines.map Line.rectangle =
      some [t.pos.1 + w, t.pos.2 + w, t.size.1 - 2 * w, t.size.2 - 2 * w] := by
  have hne : t.border_width ≠ w := by rw [hbw0]; exact ne_of_lt hwpos
  rw [set_border_width_of_ne w t hne]
  rw [obw_le_pos { t with border_width := w } hI hsome hwle hwpos]
  have hqs : ({ t with border_width := w })._border_lines.isSome = true := hsome
  obtain ⟨l1, hl1⟩ := Option.isSome_iff_exists.mp hqs
  have hch : ¬(({ t with border_width := w })._border_origin_x =
        ({ t with border_width := w }).pos.1 +
          ({ t with border_width := w }).border_width ∧
      ({ t with border_width := w })._border_origin_y =
        ({ t with border_width := w }).pos.2 +
          ({ t with border_width := w }).border_width) := by
    intro hc
    have h1 : t._border_origin_x = t.pos.1 + w := hc.1
    rw [hox] at h1
    exact (ne_of_gt hwpos) (self_eq_add_right.mp h1)
  constructor
  · rw [slw_width_map]
    have h2 : (set_border_origin { t with border_width := w })._border_lines.isSome
        = true := by
      rw [sbo_isSome_of_init { t with border_width := w } hI]; exact hqs
    obtain ⟨l2, hl2⟩ := Option.isSome_iff_exists.mp h2
    rw [hl2]
    rfl
  · rw [slw_rect_map]
    rw [sbo_rect_of_init { t with border_width := w } l1 hI hl1 hch]

/-! ### Claim theorems -/

/-- C1: for every widget whose draw primitive exists (hence, by the
creation invariant, past lazy initialization) with non-negative width,
and every `w` greater than `width / 4`, after setting
`border_width = w` both the stored `border_width` field and the
rendered stroke width equal `width / 4` (the clamped value), not `w`. -/
theorem clamp_width_and_field (s : BorderState) (l : Line) (w : ℚ)
    (hl : s._border_lines = some l) (hI : s._INIT_STATE = true)
    (hW : 0 ≤ s.size.1) (hgt : s.size.1 / 4 < w) (hne : w ≠ s.border_width) :
    (set_border_width w s).border_width = s.size.1 / 4 ∧
    (set_border_width w s)._border_lines.map Line.width = some (s.size.1 / 4) := by
  rw [set_border_width_of_ne w s (fun hc => hne hc.symm)]
  exact obw_clamp { s with border_width := w } hI
    (by simp only [show ({ s with border_width := w })._border_lines =
      s._border_lines from rfl, hl]; rfl) hW hgt

/-- Witness for C1 at the concrete widget `widget1` and `w = 100`. -/
theorem clamp_width_and_field_witness :
    widget1._border_lines =
      some ⟨[2, 2, 198, 78], 1, "square", "miter", 1, 0⟩ ∧
    widget1._INIT_STATE = true ∧ (0 : ℚ) ≤ widget1.size.1 ∧
    widget1.size.1 / 4 < 100 ∧ (100 : ℚ) ≠ widget1.border_width ∧
    ((set_border_width 100 widget1).border_width = widget1.size.1 / 4 ∧
     (set_border_width 100 widget1)._border_lines.map Line.width =
       some (widget1.size.1 / 4)) :=
  ⟨by with_unfolding_all decide, by with_unfolding_all decide, by with_unfolding_all decide, by with_unfolding_all decide, by with_unfolding_all decide,
   clamp_width_and_field widget1 ⟨[2, 2, 198, 78], 1, "square", "miter", 1, 0⟩ 100
     (by with_unfolding_all decide) (by with_unfolding_all decide) (by with_unfolding_all decide) (by with_unfolding_all decide) (by with_unfolding_all decide)⟩

/-- C2: on every position change the origin is recomputed as
`position + (border_width, border_width)`; on every `border_width`
change the origin ends up as `position` plus the (possibly clamped)
stored width in both axes; and the origin-change handler on a widget
whose draw primitive exists sets the outline rectangle to
`[origin.x, origin.y, width - 2*border_width, height - 2*border_width]`. -/
theorem origin_and_rectangle (s : BorderState) (l : Line) (p : ℚ × ℚ) (w : ℚ)
    (hl : s._border_lines = some l) (hI : s._INIT_STATE = true)
    (hp : p ≠ s.pos) (hw : w ≠ s.border_width) :
    ((set_pos p s)._border_origin_x = p.1 + s.border_width ∧
     (set_pos p s)._border_origin_y = p.2 + s.border_width) ∧
    ((set_border_width w s)._border_origin_x =
        s.pos.1 + (set_border_width w s).border_width ∧
     (set_border_width w s)._border_origin_y =
        s.pos.2 + (set_border_width w s).border_width) ∧
    (on__border_origin s)._border_lines.map Line.rectangle =
      some [s._border_origin_x, s._border_origin_y,
            s.size.1 - 2 * s.border_width, s.size.2 - 2 * s.border_width] := by
  refine ⟨⟨?_, ?_⟩, ?_, ?_⟩
  · unfold set_pos
    rw [if_neg (fun hc => hp hc.symm)]
    simp
  · unfold set_pos
    rw [if_neg (fun hc => hp hc.symm)]
    simp
  · rw [set_border_width_of_ne w s (fun hc => hw hc.symm)]
    exact obw_origin { s with border_width := w }
  · rw [on_origin_of_init s hI]
    simp [_update_borders, hl]

/-- C3 counterexample: on the concrete initialized widget `widget1`
(border width 1), running the size-change plus position-change sequence
a second time still moves the position, origin and outline rectangle,
so the sequence is not idempotent as claimed. -/
theorem sync_sequence_not_idempotent :
    ¬(geometry (sync_sequence (sync_sequence widget1)) =
      geometry (sync_sequence widget1)) := by
  with_unfolding_all decide

/-- C3 (amended): the position-change handler is idempotent from every
state, and the full size+position synchronization sequence is
idempotent when `border_width = 0`; for a non-zero width each
size-change invocation shifts the position and origin by the width
(see the counterexample), because `on_size` overwrites `pos` with the
recomputed origin. -/
theorem sync_sequence_idempotent_amended :
    (∀ s : BorderState, on_pos (on_pos s) = on_pos s) ∧
    (∀ s : BorderState, s.border_width = 0 →
      sync_sequence (sync_sequence s) = sync_sequence s) := by
  constructor
  · intro s
    exact sbo_stable (on_pos s) (by simp) (by simp)
  · intro s h0
    obtain ⟨a, b, c, d⟩ := seq_establishes s h0
    exact seq_stable _ a b c d

/-- Witness for the amended C3 at `widget1` and the zero-width widget
`zWidget`. -/
theorem sync_sequence_idempotent_amended_witness :
    (on_pos (on_pos widget1) = on_pos widget1) ∧
    zWidget.border_width = 0 ∧
    sync_sequence (sync_sequence zWidget) = sync_sequence zWidget :=
  ⟨sync_sequence_idempotent_amended.1 widget1, by with_unfolding_all decide,
   sync_sequence_idempotent_amended.2 zWidget (by with_unfolding_all decide)⟩

/-- C4: on a widget whose draw primitive exists, setting
`border_width = 0` collapses the outline rectangle to `[0,0,0,0]` while
the drawing instruction is retained, and a subsequent in-range positive
width assignment restores a stroke of that width and the inset
rectangle geometry. -/
theorem zero_width_hides_and_reactivates (s : BorderState) (l : Line) (w : ℚ)
    (hl : s._border_lines = some l) (hI : s._INIT_STATE = true)
    (hW : 0 ≤ s.size.1) (hnz : s.border_width ≠ 0)
    (hwpos : 0 < w) (hwle : w ≤ s.size.1 / 4) :
    ((set_border_width 0 s)._border_lines.map Line.rectangle = some [0, 0, 0, 0] ∧
     (set_border_width 0 s)._border_lines.isSome = true) ∧
    ((set_border_width w (set_border_width 0 s))._border_lines.map Line.width =
       some w ∧
     (set_border_width w (set_border_width 0 s))._border_lines.map Line.rectangle =
       some [s.pos.1 + w, s.pos.2 + w, s.size.1 - 2 * w, s.size.2 - 2 * w]) := by
  have hmax : (0 : ℚ) ≤ s.size.1 / 4 := div_nonneg hW (by norm_num)
  have hsome : s._border_lines.isSome = true := by rw [hl]; rfl
  have e1 : set_border_width 0 s =
      setLineRectangle [0, 0, 0, 0]
        (set_border_origin { s with border_width := 0 }) := by
    rw [set_border_width_of_ne 0 s hnz]
    exact obw_zero { s with border_width := 0 } hI hsome hmax rfl
  rw [e1]
  have hI1 : (set_border_origin { s with border_width := 0 })._INIT_STATE = true :=
    sbo_init_of_init _ hI
  have hsome1 : (set_border_origin
      { s with border_width := 0 })._border_lines.isSome = true := by
    rw [sbo_isSome_of_init { s with border_width := 0 } hI]
    exact hsome
  obtain ⟨l1, hl1⟩ := Option.isSome_iff_exists.mp hsome1
  refine ⟨⟨?_, ?_⟩, ?_⟩
  · rw [slr_rect_map, hl1]
    rfl
  · rw [slr_isSome]
    exact hsome1
  · obtain ⟨r1, r2⟩ := reactivate
      (setLineRectangle [0, 0, 0, 0] (set_border_origin { s with border_width := 0 }))
      w (by simpa using hI1) (by simpa using hsome1) (by simp) (by simp)
      hwpos (by simpa using hwle)
    refine ⟨r1, ?_⟩
    rw [r2]
    simp

/-- Witness for C4 at `widget1` and `w = 2`. -/
theorem zero_width_hides_and_reactivates_witness :
    widget1._border_lines =
      some ⟨[2, 2, 198, 78], 1, "square", "miter", 1, 0⟩ ∧
    widget1._INIT_STATE = true ∧ (0 : ℚ) ≤ widget1.size.1 ∧
    widget1.border_width ≠ 0 ∧ (0 : ℚ) < 2 ∧ (2 : ℚ) ≤ widget1.size.1 / 4 ∧
    (((set_border_width 0 widget1)._border_lines.map Line.rectangle =
        some [0, 0, 0, 0] ∧
      (set_border_width 0 widget1)._border_lines.isSome = true) ∧
     ((set_border_width 2 (set_border_width 0 widget1))._border_lines.map
        Line.width = some 2 ∧
      (set_border_width 2 (set_border_width 0 widget1))._border_lines.map
        Line.rectangle =
        some [widget1.pos.1 + 2, widget1.pos.2 + 2,
              widget1.size.1 - 2 * 2, widget1.size.2 - 2 * 2])) :=
  ⟨by with_unfolding_all decide, by with_unfolding_all decide,
   by with_unfolding_all decide, by with_unfolding_all decide,
   by with_unfolding_all decide, by with_unfolding_all decide,
   zero_width_hides_and_reactivates widget1
     ⟨[2, 2, 198, 78], 1, "square", "miter", 1, 0⟩ 2
     (by with_unfolding_all decide) (by with_unfolding_all decide)
     (by with_unfolding_all decide) (by with_unfolding_all decide)
     (by with_unfolding_all decide) (by with_unfolding_all decide)⟩

/-- C5: on a widget whose draw primitive exists, setting a negative
`border_width = w` renders a stroke of width `abs w`, while the
computed origin offsets the position by the literal negative `w` in
both axes. -/
theorem negative_width_abs_stroke (s : BorderState) (l : Line) (w : ℚ)
    (hl : s._border_lines = some l) (hI : s._INIT_STATE = true)
    (hW : 0 ≤ s.size.1) (hneg : w < 0) (hne : w ≠ s.border_width) :
    (set_border_width w s)._border_lines.map Line.width = some |w| ∧
    (set_border_width w s)._border_origin_x = s.pos.1 + w ∧
    (set_border_width w s)._border_origin_y = s.pos.2 + w := by
  have hsome : s._border_lines.isSome = true := by rw [hl]; rfl
  have hle : w ≤ s.size.1 / 4 :=
    le_trans (le_of_lt hneg) (div_nonneg hW (by norm_num))
  rw [set_border_width_of_ne w s (fun hc => hne hc.symm)]
  rw [obw_neg { s with border_width := w } hI hsome hle hneg]
  refine ⟨?_, by simp, by simp⟩
  rw [slw_width_map]
  have h2 : (set_border_origin
      { s with border_width := w })._border_lines.isSome = true := by
    rw [sbo_isSome_of_init { s with border_width := w } hI]
    exact hsome
  obtain ⟨l2, hl2⟩ := Option.isSome_iff_exists.mp h2
  rw [hl2]
  rfl

/-- Witness for C5 at `widget1` and `w = -3`. -/
theorem negative_width_abs_stroke_witness :
    widget1._border_lines =
      some ⟨[2, 2, 198, 78], 1, "square", "miter", 1, 0⟩ ∧
    widget1._INIT_STATE = true ∧ (0 : ℚ) ≤ widget1.size.1 ∧
    (-3 : ℚ) < 0 ∧ (-3 : ℚ) ≠ widget1.border_width ∧
    ((set_border_width (-3) widget1)._border_lines.map Line.width =
       some |(-3 : ℚ)| ∧
     (set_border_width (-3) widget1)._border_origin_x = widget1.pos.1 + -3 ∧
     (set_border_width (-3) widget1)._border_origin_y = widget1.pos.2 + -3) :=
  ⟨by with_unfolding_all decide, by with_unfolding_all decide,
   by with_unfolding_all decide, by with_unfolding_all decide,
   by with_unfolding_all decide,
   negative_width_abs_stroke widget1
     ⟨[2, 2, 198, 78], 1, "square", "miter", 1, 0⟩ (-3)
     (by with_unfolding_all decide) (by with_unfolding_all decide)
     (by with_unfolding_all decide) (by with_unfolding_all decide)
     (by with_unfolding_all decide)⟩

/-- Witness for C2 at `widget1`, `p = (7, 9)` and `w = 3`. -/
theorem origin_and_rectangle_witness :
    widget1._border_lines =
      some ⟨[2, 2, 198, 78], 1, "square", "miter", 1, 0⟩ ∧
    widget1._INIT_STATE = true ∧
    ((7 : ℚ), (9 : ℚ)) ≠ widget1.pos ∧ (3 : ℚ) ≠ widget1.border_width ∧
    (((set_pos (7, 9) widget1)._border_origin_x = 7 + widget1.border_width ∧
      (set_pos (7, 9) widget1)._border_origin_y = 9 + widget1.border_width) ∧
     ((set_border_width 3 widget1)._border_origin_x =
         widget1.pos.1 + (set_border_width 3 widget1).border_width ∧
      (set_border_width 3 widget1)._border_origin_y =
         widget1.pos.2 + (set_border_width 3 widget1).border_width) ∧
     (on__border_origin widget1)._border_lines.map Line.rectangle =
       some [widget1._border_origin_x, widget1._border_origin_y,
             widget1.size.1 - 2 * widget1.border_width,
             widget1.size.2 - 2 * widget1.border_width]) :=
  ⟨by with_unfolding_all decide, by with_unfolding_all decide, by with_unfolding_all decide, by with_unfolding_all decide,
   origin_and_rectangle widget1 ⟨[2, 2, 198, 78], 1, "square", "miter", 1, 0⟩
     (7, 9) 3 (by with_unfolding_all decide) (by with_unfolding_all decide) (by with_unfolding_all decide) (by with_unfolding_all decide)⟩

/-- C6: setting the `borders` aggregate decomposes it into the three
individual fields in the order width, style, color: with a known style
key and an in-range width, reading back `border_width`, `border_style`
and `border_color` yields exactly the assigned triple. -/
theorem borders_roundtrip (s : BorderState) (w : ℚ) (st : String) (c : List ℚ)
    (hst : (_dash_styles st).isSome = true) (hwle : w ≤ s.size.1 / 4)
    (hne : s.borders ≠ (w, st, c)) :
    ∃ s', set_borders (w, st, c) s = some s' ∧
      s'.border_width = w ∧ s'.border_style = st ∧ s'.border_color = c := by
  obtain ⟨d, hd⟩ := Option.isSome_iff_exists.mp hst
  unfold set_borders
  rw [if_neg hne, on_borders_eq]
  dsimp only
  rw [hd]
  simp only [Option.map_some']
  refine ⟨_, rfl, ?_, ?_, ?_⟩
  · rw [sbo_bw, sbc_bw]
    exact sbw_bw_of_le w { s with borders := (w, st, c) } hwle
  · simp
  · simp

/-- Witness for C6 at the default widget and `(5, dashed, red)`. -/
theorem borders_roundtrip_witness :
    (_dash_styles "dashed").isSome = true ∧
    (5 : ℚ) ≤ baseWidget.size.1 / 4 ∧
    baseWidget.borders ≠ (5, "dashed", [1, 0, 0, 1]) ∧
    (∃ s', set_borders (5, "dashed", [1, 0, 0, 1]) baseWidget = some s' ∧
      s'.border_width = 5 ∧ s'.border_style = "dashed" ∧
      s'.border_color = [1, 0, 0, 1]) :=
  ⟨rfl, by with_unfolding_all decide, by with_unfolding_all decide,
   borders_roundtrip baseWidget 5 "dashed" [1, 0, 0, 1] rfl
     (by with_unfolding_all decide) (by with_unfolding_all decide)⟩

/-- C7: construction with no arguments yields `border_width = 1`,
`border_style = solid`, `border_color = (1,1,1,1)` and no draw
primitive; the primitive appears on the first size-change or
origin-change event. -/
theorem default_construction :
    mkBorderStyle none none none = some baseWidget ∧
    baseWidget.border_width = 1 ∧ baseWidget.border_style = "solid" ∧
    baseWidget.border_color = [1, 1, 1, 1] ∧ baseWidget._border_lines = none ∧
    (on_size baseWidget)._border_lines.isSome = true ∧
    (on__border_origin baseWidget)._border_lines.isSome = true := by
  with_unfolding_all decide

/-- C8: from any successfully constructed widget, along any sequence of
public mutations, `_draw_border` has run at most once, the drawing
instruction exists exactly when the lazy-init flag is set, and once the
instruction exists it was created by exactly one `_draw_border` run
(it is never recreated). -/
theorem drawn_border_created_once (bw : Option ℚ) (bs : Option String)
    (bc : Option (List ℚ)) (s0 : BorderState) (ops : List Op) (s' : BorderState)
    (hmk : mkBorderStyle bw bs bc = some s0) (hops : applyOps ops s0 = some s') :
    s'.draw_count ≤ 1 ∧
    (s'._border_lines.isSome = true ↔ s'._INIT_STATE = true) ∧
    (s'._border_lines.isSome = true → s'.draw_count = 1) := by
  obtain ⟨h1, h2⟩ := inv_applyOps ops s0 s' (inv_mk bw bs bc s0 hmk) hops
  refine ⟨?_, ?_, ?_⟩
  · rw [h2]; split <;> norm_num
  · rw [h1]
  · intro h3
    rw [h1] at h3
    rw [h2, h3]
    rfl

/-- Witness for C8: the default construction followed by one size
change creates the primitive exactly once. -/
theorem drawn_border_created_once_witness :
    mkBorderStyle none none none = some baseWidget ∧
    applyOps [Op.opSetSize (200, 80)] baseWidget = some widget1 ∧
    (widget1.draw_count ≤ 1 ∧
     (widget1._border_lines.isSome = true ↔ widget1._INIT_STATE = true) ∧
     (widget1._border_lines.isSome = true → widget1.draw_count = 1)) :=
  ⟨by with_unfolding_all decide, by with_unfolding_all decide,
   drawn_border_created_once none none none baseWidget [Op.opSetSize (200, 80)]
     widget1 (by with_unfolding_all decide) (by with_unfolding_all decide)⟩

/-- C9 counterexample: the empty style string lies outside
{solid, dashed, dotted}, yet supplying it at construction does not make
the lookup fail: the constructor tests the argument for truthiness and
silently replaces the empty string by solid. -/
theorem empty_style_defaulted :
    (mkBorderStyle none (some "") none).map BorderState.border_style =
      some "solid" := by
  with_unfolding_all decide

/-- C9 (amended): for every truthy (non-empty) style string outside
{solid, dashed, dotted}, supplying it at construction or via the
`borders` aggregate makes the dash-style mapping lookup fail (the
operation returns no state, modelling the uncaught KeyError); the empty
string is the one falsy exception, silently defaulted to solid at
construction. -/
theorem invalid_style_fails (st : String)
    (h1 : st ≠ "solid") (h2 : st ≠ "dashed") (h3 : st ≠ "dotted")
    (h4 : st ≠ "") :
    (∀ (bw : Option ℚ) (bc : Option (List ℚ)),
      mkBorderStyle bw (some st) bc = none) ∧
    (∀ (w : ℚ) (c : List ℚ) (s : BorderState), s.borders ≠ (w, st, c) →
      set_borders (w, st, c) s = none) := by
  have hlook : _dash_styles st = none := by
    unfold _dash_styles
    rw [if_neg h2, if_neg h3, if_neg h1]
  constructor
  · intro bw bc
    unfold mkBorderStyle
    dsimp only
    rw [if_neg h4, hlook]
    rfl
  · intro w c s hne
    unfold set_borders
    rw [if_neg hne, on_borders_eq]
    dsimp only
    rw [hlook]
    rfl

/-- Witness for the amended C9 at the style string zigzag. -/
theorem invalid_style_fails_witness :
    ("zigzag" : String) ≠ "solid" ∧ ("zigzag" : String) ≠ "dashed" ∧
    ("zigzag" : String) ≠ "dotted" ∧ ("zigzag" : String) ≠ "" ∧
    mkBorderStyle none (some "zigzag") none = none ∧
    set_borders (2, "zigzag", [1, 1, 1, 1]) baseWidget = none :=
  ⟨by with_unfolding_all decide, by with_unfolding_all decide,
   by with_unfolding_all decide, by with_unfolding_all decide,
   (invalid_style_fails "zigzag" (by with_unfolding_all decide)
     (by with_unfolding_all decide) (by with_unfolding_all decide)
     (by with_unfolding_all decide)).1 none none,
   (invalid_style_fails "zigzag" (by with_unfolding_all decide)
     (by with_unfolding_all decide) (by with_unfolding_all decide)
     (by with_unfolding_all decide)).2 2 [1, 1, 1, 1] baseWidget
     (by with_unfolding_all decide)⟩

/-- C10: constructing with an explicit falsy `border_width` (zero)
silently substitutes the default 1 for the stored field; no
construction can produce a stored zero width, and zero is reachable
only by a later assignment. -/
theorem falsy_width_defaults :
    ((mkBorderStyle (some 0) none none).map BorderState.border_width = some 1) ∧
    (∀ (bw : Option ℚ) (bs : Option String) (bc : Option (List ℚ))
        (s : BorderState),
      mkBorderStyle bw bs bc = some s → s.border_width ≠ 0) ∧
    (∀ s : BorderState, mkBorderStyle (some 0) none none = some s →
      (set_border_width 0 s).border_width = 0) := by
  refine ⟨by with_unfolding_all decide, ?_, ?_⟩
  · intro bw bs bc s hmk
    rcases bw with _ | w
    · unfold mkBorderStyle at hmk
      dsimp only at hmk
      rw [Option.map_eq_some'] at hmk
      obtain ⟨d, hd, hfd⟩ := hmk
      rw [← hfd]
      show (set_border_width 1 baseWidget).border_width ≠ 0
      rcases sbw_bw_cases 1 baseWidget with h | h <;> rw [h] <;>
        with_unfolding_all decide
    · unfold mkBorderStyle at hmk
      dsimp only at hmk
      rw [Option.map_eq_some'] at hmk
      obtain ⟨d, hd, hfd⟩ := hmk
      rw [← hfd]
      show (set_border_width (if w = 0 then (1 : ℚ) else w)
        baseWidget).border_width ≠ 0
      by_cases hw : w = 0
      · rw [if_pos hw]
        rcases sbw_bw_cases 1 baseWidget with h | h <;> rw [h] <;>
          with_unfolding_all decide
      · rw [if_neg hw]
        rcases sbw_bw_cases w baseWidget with h | h <;> rw [h]
        · exact hw
        · with_unfolding_all decide
  · intro s hmk
    have he : mkBorderStyle (some 0) none none = some baseWidget := by
      with_unfolding_all decide
    rw [he, Option.some.injEq] at hmk
    rw [← hmk]
    with_unfolding_all decide

/-- Witness for C10 at the zero constructor argument. -/
theorem falsy_width_defaults_witness :
    ((mkBorderStyle (some 0) none none).map BorderState.border_width = some 1) ∧
    (mkBorderStyle (some 0) none none = some baseWidget ∧
     baseWidget.border_width ≠ 0) ∧
    (mkBorderStyle (some 0) none none = some baseWidget ∧
     (set_border_width 0 baseWidget).border_width = 0) :=
  ⟨falsy_width_defaults.1,
   ⟨by with_unfolding_all decide,
    falsy_width_defaults.2.1 (some 0) none none baseWidget
      (by with_unfolding_all decide)⟩,
   ⟨by with_unfolding_all decide,
    falsy_width_defaults.2.2 baseWidget (by with_unfolding_all decide)⟩⟩

end Styles
